import Mathlib

/-!
Verification development for the MCP HTTP endpoint adapter layer
(`src/app/api/mcp/route.ts`, `src/app/api/mcp/lib/helpers.ts`,
`src/app/api/mcp/tools/countJapaneseChars.ts`).

The TypeScript source is shallowly embedded: the process-wide session
`Map` becomes an association list threaded explicitly, the mutable
response-collector object becomes a state record with pure transition
functions, and the external protocol engine (the MCP SDK transport,
which is a dependency, not part of this repository) is modelled from
the interface contract the spec gives for it.
-/

set_option autoImplicit false

namespace McpPractice

/-! ## Association-list model of JavaScript `Map<string, _>` and header records

`route.ts` keeps sessions in `const transports = new Map<string, Transport>()`.
A JS `Map` preserves insertion order, `set` overwrites in place, `delete`
removes, `has`/`get` look up; a `Map` never holds two entries with the same
key, so the association lists built through these operations have at most
one entry per key and the recursive first-occurrence formulations below
coincide with the JS semantics.  Transport handles are identified by a
`Nat` tag (object identity).  Header records (`Record<string, string>` and
the Fetch `Headers` object, which is case-insensitive: we keep every name
lower-case) get the same overwrite model over `String` values. -/

/-- Session registry: insertion-ordered key/value pairs, at most one entry
per key when built through `set`/`delete` from `[]`. -/
abbrev Registry := List (String × Nat)

/-- Lookup, as JS `Map.prototype.get`. -/
def Registry.get? : Registry → String → Option Nat
  | [], _ => none
  | p :: t, k => if p.1 == k then some p.2 else Registry.get? t k

/-- Membership test, as JS `Map.prototype.has`. -/
def Registry.hasKey : Registry → String → Bool
  | [], _ => false
  | p :: t, k => p.1 == k || Registry.hasKey t k

/-- Insert-or-overwrite, as JS `Map.prototype.set`: an existing entry is
updated in place, otherwise the pair is appended at the end. -/
def Registry.set : Registry → String → Nat → Registry
  | [], k, v => [(k, v)]
  | p :: t, k, v => if p.1 == k then (k, v) :: t else p :: Registry.set t k v

/-- Removal, as JS `Map.prototype.delete` (a no-op when the key is absent). -/
def Registry.delete : Registry → String → Registry
  | [], _ => []
  | p :: t, k => if p.1 == k then Registry.delete t k else p :: Registry.delete t k

theorem Registry.get?_delete_self (m : Registry) (k : String) :
    Registry.get? (Registry.delete m k) k = none := by
  induction m with
  | nil => rfl
  | cons p t ih =>
    by_cases hp : p.1 = k
    · simpa [Registry.delete, hp] using ih
    · simpa [Registry.delete, Registry.get?, hp] using ih

theorem Registry.hasKey_delete_self (m : Registry) (k : String) :
    Registry.hasKey (Registry.delete m k) k = false := by
  induction m with
  | nil => rfl
  | cons p t ih =>
    by_cases hp : p.1 = k
    · simpa [Registry.delete, hp] using ih
    · simpa [Registry.delete, Registry.hasKey, hp] using ih

theorem Registry.hasKey_delete_mono (m : Registry) (k k' : String)
    (h : Registry.hasKey (Registry.delete m k) k' = true) :
    Registry.hasKey m k' = true := by
  induction m with
  | nil => simp [Registry.delete, Registry.hasKey] at h
  | cons p t ih =>
    by_cases hp : p.1 = k
    · have := ih (by simpa [Registry.delete, hp] using h)
      simp [Registry.hasKey, this]
    · simp only [Registry.delete, beq_iff_eq, hp, if_false, Registry.hasKey,
        Bool.or_eq_true] at h ⊢
      rcases h with h | h
      · exact Or.inl h
      · exact Or.inr (ih h)

theorem Registry.get?_set_self (m : Registry) (k : String) (v : Nat) :
    Registry.get? (Registry.set m k v) k = some v := by
  induction m with
  | nil => simp [Registry.set, Registry.get?]
  | cons p t ih =>
    by_cases hp : p.1 = k
    · simp [Registry.set, Registry.get?, hp]
    · simpa [Registry.set, Registry.get?, hp] using ih

theorem Registry.get?_set_ne (m : Registry) (k k' : String) (v : Nat)
    (h : k' ≠ k) :
    Registry.get? (Registry.set m k v) k' = Registry.get? m k' := by
  induction m with
  | nil => simp [Registry.set, Registry.get?, h, Ne.symm h]
  | cons p t ih =>
    by_cases hp : p.1 = k
    · simp [Registry.set, Registry.get?, hp, h, Ne.symm h]
    · by_cases hp' : p.1 = k'
      · simp [Registry.set, Registry.get?, hp, hp', h]
      · simpa [Registry.set, Registry.get?, hp, hp'] using ih

theorem Registry.hasKey_iff_get? (m : Registry) (k : String) :
    Registry.hasKey m k = true ↔ (Registry.get? m k).isSome = true := by
  induction m with
  | nil => simp [Registry.hasKey, Registry.get?]
  | cons p t ih =>
    by_cases hp : p.1 = k
    · simp [Registry.hasKey, Registry.get?, hp]
    · simpa [Registry.hasKey, Registry.get?, hp] using ih

/-! ## Headers, response bodies, HTTP responses

Headers live in `Record<string, string | string[]>` objects and Fetch
`Headers`; both are overwrite-by-name maps.  We use the same recursive
association-list operations as for the registry, specialised to `String`
values, and keep all names lower-case (Fetch `Headers` is
case-insensitive). -/

abbrev HeaderMap := List (String × String)

/-- Header lookup (`Headers.prototype.get` / `Record` read). -/
def hget : HeaderMap → String → Option String
  | [], _ => none
  | p :: t, k => if p.1 == k then some p.2 else hget t k

/-- Header overwrite (`Headers.prototype.set` / `Record` assignment). -/
def hset : HeaderMap → String → String → HeaderMap
  | [], k, v => [(k, v)]
  | p :: t, k, v => if p.1 == k then (k, v) :: t else p :: hset t k v

theorem hget_hset_self (m : HeaderMap) (k v : String) :
    hget (hset m k v) k = some v := by
  induction m with
  | nil => simp [hset, hget]
  | cons p t ih =>
    by_cases hp : p.1 = k
    · simp [hset, hget, hp]
    · simpa [hset, hget, hp] using ih

theorem hget_hset_ne (m : HeaderMap) (k k' v : String) (h : k' ≠ k) :
    hget (hset m k v) k' = hget m k' := by
  induction m with
  | nil => simp [hset, hget, h, Ne.symm h]
  | cons p t ih =>
    by_cases hp : p.1 = k
    · simp [hset, hget, hp, h, Ne.symm h]
    · by_cases hp' : p.1 = k'
      · simp [hset, hget, hp, hp', h]
      · simpa [hset, hget, hp, hp'] using ih

/-- JavaScript `x || null` applied to the JSON-RPC `body.id` slot
(`id: body.id || null` in the error envelopes of `route.ts`): a falsy id
(absent, or the number `0`) becomes `null`. -/
def jsOrNull : Option Int → Option Int
  | none => none
  | some v => if v = 0 then none else some v

/-- The response bodies the handlers in `route.ts` can produce, by shape:
a body written by the protocol engine, a JSON-RPC error envelope
(`{jsonrpc:"2.0", error:{code,message,data?}, id}` — the `data` payload is
abstracted to its string content), or the `{status, message, sessionId?}`
records of the GET/DELETE handlers. -/
inductive RespBody where
  | engine (payload : Option String)
  | rpcError (code : Int) (message : String) (data : Option String) (id : Option Int)
  | statusOk (message : String) (sessionId : Option String)
  | statusErr (message : String)
  deriving Repr, DecidableEq

/-- A fully materialised HTTP response: status, headers, body. -/
structure HttpResponse where
  status : Nat
  headers : HeaderMap
  body : RespBody
  deriving Repr, DecidableEq

/-- `setCorsHeaders` from `helpers.ts`: sets the four CORS headers on the
response (overwriting by name) and returns it. -/
def setCorsHeaders (r : HttpResponse) : HttpResponse :=
  { r with
    headers :=
      hset (hset (hset (hset r.headers
        "access-control-allow-origin" "*")
        "access-control-allow-methods" "GET, POST, DELETE, OPTIONS")
        "access-control-allow-headers" "Content-Type, Mcp-Session-Id, Authorization")
        "access-control-expose-headers" "Mcp-Session-Id" }

/-- The parsed JSON-RPC request body, as far as the router inspects it:
`isInitializeRequest(body)` (the SDK's handshake-shape test) and `body.id`. -/
structure Envelope where
  isInit : Bool
  reqId : Option Int
  deriving Repr, DecidableEq

/-! ## The protocol engine, modelled at its interface boundary

`StreamableHTTPServerTransport` comes from the MCP SDK — a dependency,
not code of this repository; the spec treats it as a black box with a
`handleRequest` contract and lifecycle callbacks.  An `Engine` value
records one concrete behaviour of that black box for the current call:
the session id its `sessionIdGenerator` (i.e. `randomUUID`) produces,
whether `handleRequest` throws, the error message if it does, and the
status/headers/body it writes into the response collector if it does not. -/

structure Engine where
  /-- Output of the `sessionIdGenerator` option, i.e. of `randomUUID()`. -/
  genId : String
  /-- Whether `handleRequest` throws on the initiating call, before the
  `onsessioninitialized` callback has fired. -/
  initThrows : Bool
  /-- Message of the error thrown on the initiating call. -/
  initErrMsg : String
  initStatus : Nat
  initHeaders : HeaderMap
  initBody : Option String
  /-- Whether `handleRequest` throws on a continuing call. -/
  contThrows : Bool
  contErrMsg : String
  contStatus : Nat
  contHeaders : HeaderMap
  contBody : Option String
  deriving Repr, DecidableEq

/-- Modelled from the spec: `transport.handleRequest` on a session-initiating
call (§4.4 step 1 — the engine is constructed with a server-side id
generator, an id-assigned callback that inserts `(newId, handle)` into the
registry, and after completion the response carries the assigned id in the
dedicated `mcp-session-id` header).  Either it throws before the
id-assigned callback fires, or it runs the callback registered in
`route.ts` (which stores the handle under the generated id) and writes a
response whose `mcp-session-id` header holds the generated id. -/
def Engine.handleInit (eng : Engine) (reg : Registry) (handle : Nat) :
    Except String (Registry × HttpResponse) :=
  if eng.initThrows then
    Except.error eng.initErrMsg
  else
    Except.ok (Registry.set reg eng.genId handle,
      { status := eng.initStatus,
        headers := hset eng.initHeaders "mcp-session-id" eng.genId,
        body := RespBody.engine eng.initBody })

/-- Modelled from the spec: `transport.handleRequest` on a continuing call —
the engine either throws or writes a buffered response; it does not touch
the registry. -/
def Engine.handleCont (eng : Engine) : Except String HttpResponse :=
  if eng.contThrows then
    Except.error eng.contErrMsg
  else
    Except.ok { status := eng.contStatus,
                headers := eng.contHeaders,
                body := RespBody.engine eng.contBody }

/-! ## The POST and DELETE handlers of `route.ts` -/

/-- The `-32603` error envelope built in the `catch` block of `POST`
(`route.ts` lines 523–539): generic message always; the error detail is
spread into a `data` field only when `process.env.NODE_ENV` is
`"development"`; `id: null`. -/
def internalErrorEnvelope (env : String) (errMsg : String) : RespBody :=
  RespBody.rpcError (-32603) "Internal server error"
    (if env = "development" then some errMsg else none) none

/-- The full 500 response of the `catch` block, CORS headers included. -/
def internalErrorResponse (env : String) (errMsg : String) : HttpResponse :=
  setCorsHeaders
    { status := 500, headers := [], body := internalErrorEnvelope env errMsg }

/-- The `-32000` / HTTP 400 response for a continuing call whose session id
is missing or not registered (`route.ts` lines 437–452). -/
def invalidSessionResponse (reqId : Option Int) : HttpResponse :=
  setCorsHeaders
    { status := 400, headers := [],
      body := RespBody.rpcError (-32000)
        "Bad Request: No valid session ID provided or session not found"
        (some "Please send an initialize request first") (jsOrNull reqId) }

/-- Result of one `POST` call: the registry afterwards and the response. -/
structure PostResult where
  registry : Registry
  resp : HttpResponse
  deriving Repr, DecidableEq

/-- The existing-session cleanup at the top of the initiating branch of
`POST` (`route.ts` lines 204–208): a caller-supplied session id that is
currently registered is deleted before the new transport is created. -/
def cleanupStale (sessionId : Option String) (reg : Registry) : Registry :=
  match sessionId with
  | some sid => if Registry.hasKey reg sid then Registry.delete reg sid else reg
  | none => reg

/-- The `POST` handler of `route.ts`, from the point where the body has been
parsed.  `env` is `process.env.NODE_ENV`, `eng` the behaviour of the
protocol engine for this call, `freshHandle` the identity of the transport
object a session-initiating call would construct, `sessionId` the
`mcp-session-id` request header, `reg` the session map before the call.

Initiating call (`isInitializeRequest(body)`): an old registry entry under
the caller-supplied id is deleted first; then the new transport is created
and `handleRequest` either succeeds (registering the generated id and
answering with it in the `mcp-session-id` header) or throws into the
`catch` block.  Continuing call: the transport is looked up under the
supplied id; a missing or unknown id yields the `-32000`/400 envelope;
otherwise `handleRequest` either succeeds or throws into the `catch`
block.  All responses pass through `setCorsHeaders`. -/
def POST (env : String) (eng : Engine) (freshHandle : Nat)
    (sessionId : Option String) (body : Envelope) (reg : Registry) :
    PostResult :=
  if body.isInit then
    let reg1 := cleanupStale sessionId reg
    match Engine.handleInit eng reg1 freshHandle with
    | Except.error msg =>
        { registry := reg1, resp := internalErrorResponse env msg }
    | Except.ok (reg2, r) =>
        { registry := reg2, resp := setCorsHeaders r }
  else
    match sessionId with
    | some sid =>
        if Registry.hasKey reg sid then
          match Engine.handleCont eng with
          | Except.error msg =>
              { registry := reg, resp := internalErrorResponse env msg }
          | Except.ok r =>
              { registry := reg, resp := setCorsHeaders r }
        else
          { registry := reg, resp := invalidSessionResponse body.reqId }
    | none =>
        { registry := reg, resp := invalidSessionResponse body.reqId }

/-- Result of one `DELETE` call: the registry afterwards, the transport
handles whose close machinery (`transport.close()` / `onsessionclosed`)
was invoked during the call, and the response. -/
structure DeleteResult where
  registry : Registry
  closed : List Nat
  resp : HttpResponse
  deriving Repr, DecidableEq

/-- The `DELETE` handler of `route.ts` (lines 665–744): no session header →
400; unknown id → 404; known id → the entry is removed from the map by a
direct `transports.delete(sessionId)` — the handler contains no call to
`transport.close()` and does not fire `onsessionclosed`, so `closed` is
empty on every path — and a 200 success record echoing the id is
returned. -/
def DELETE (sessionId : Option String) (reg : Registry) : DeleteResult :=
  match sessionId with
  | none =>
      { registry := reg, closed := [],
        resp := setCorsHeaders
          { status := 400, headers := [],
            body := RespBody.statusErr "No session ID provided" } }
  | some sid =>
      if Registry.hasKey reg sid then
        { registry := Registry.delete reg sid, closed := [],
          resp := setCorsHeaders
            { status := 200, headers := [],
              body := RespBody.statusOk "Session deleted successfully" (some sid) } }
      else
        { registry := reg, closed := [],
          resp := setCorsHeaders
            { status := 404, headers := [],
              body := RespBody.statusErr "Session not found" } }

/-! ## Request Adapter: `createIncomingMessage` (`helpers.ts` lines 5–40)

`createIncomingMessage(req, body)` copies the request headers into a plain
record, serialises the body (`body ? JSON.stringify(body) : ""`), builds a
fresh Node `Readable.from([bodyString])` stream — a finite, single-pass
source holding exactly one chunk — and attaches the HTTP metadata fields.
The stream is modelled as its chunk list plus a read position; being a
plain finite list, it terminates (end-of-data) after its chunks are
yielded and has no error channel.  The serialised body is abstracted to
the string `JSON.stringify` would produce (`JSON.stringify` is a platform
primitive); an absent (or falsy) `body` argument is `none`. -/

/-- A single-pass chunk stream: the chunks pushed by `Readable.from` and
how many of them have already been consumed. -/
structure ByteStream where
  chunks : List String
  pos : Nat
  deriving Repr, DecidableEq

/-- Consume the stream to its end (`for await (const chunk of stream)`):
yields the not-yet-consumed chunks and leaves the stream exhausted. -/
def ByteStream.readAll (s : ByteStream) : List String × ByteStream :=
  (List.drop s.pos s.chunks, { s with pos := s.chunks.length })

/-- The `IncomingMessage` value `createIncomingMessage` returns: HTTP
metadata fields plus the body stream. -/
structure IncomingMsg where
  headers : HeaderMap
  method : String
  url : String
  httpVersion : String
  stream : ByteStream
  deriving Repr, DecidableEq

/-- The request data `createIncomingMessage` reads from the `NextRequest`. -/
structure NextReq where
  method : String
  url : String
  headers : HeaderMap
  deriving Repr, DecidableEq

/-- `createIncomingMessage` from `helpers.ts`: every invocation builds a
brand-new stream (`pos = 0`) over the single chunk
`body ? JSON.stringify(body) : ""`; `body` is the serialised body text
when present. -/
def createIncomingMessage (req : NextReq) (body : Option String) : IncomingMsg :=
  let bodyString := match body with | some j => j | none => ""
  { headers := req.headers
    method := req.method
    url := req.url
    httpVersion := "1.1"
    stream := { chunks := [bodyString], pos := 0 } }

/-! ## Response Collector: `createServerResponse` (`helpers.ts` lines 42–185)

The collector closes over a local `statusCode` variable (initially 200), a
header record, a chunk buffer, a `headersSent` flag and a one-shot promise.
The response object additionally carries its own `statusCode` property
(also initially 200).  `write` appends a chunk; `end` optionally appends a
truthy final chunk, concatenates the buffer (an empty buffer yields an
`undefined` body), builds the `NextResponse` with the *local* `statusCode`
variable, and resolves the promise — a JS promise keeps the value of its
first resolution, so a later `end` cannot change it.  `writeHead` updates
both the local variable and the property and merges headers
(`Object.assign`); assigning the `statusCode` property directly touches
only the property, not the local variable `end` reads. -/

/-- The buffered response the collector's promise resolves with. -/
structure BufferedResponse where
  status : Nat
  headers : HeaderMap
  body : Option String
  deriving Repr, DecidableEq

/-- The collector state: closure variables plus response-object fields. -/
structure Collector where
  /-- The closure-local `statusCode` variable read by `end`. -/
  statusCodeVar : Nat
  /-- The `statusCode` property of the response object. -/
  statusCode : Nat
  statusMessage : String
  headers : HeaderMap
  chunks : List String
  headersSent : Bool
  /-- The one-shot promise: `some r` once resolved with `r`. -/
  resolved : Option BufferedResponse
  deriving Repr, DecidableEq

/-- The fresh collector `createServerResponse()` returns. -/
def Collector.start : Collector :=
  { statusCodeVar := 200, statusCode := 200, statusMessage := "OK",
    headers := [], chunks := [], headersSent := false, resolved := none }

/-- `response.write(chunk)`: pushes the chunk and returns `true`. -/
def Collector.write (s : Collector) (c : String) : Collector :=
  { s with chunks := s.chunks ++ [c] }

/-- `response.setHeader(name, value)`. -/
def Collector.setHeader (s : Collector) (n v : String) : Collector :=
  { s with headers := hset s.headers n v }

/-- `response.removeHeader(name)` (JS `delete headers[name]`). -/
def Collector.removeHeader (s : Collector) (n : String) : Collector :=
  { s with headers := List.filter (fun p => p.1 != n) s.headers }

/-- The `if (chunk) chunks.push(...)` guard in `end`: a string chunk is
pushed only when truthy (the empty string is falsy). -/
def jsTruthyChunk : Option String → List String
  | none => []
  | some c => if c = "" then [] else [c]

/-- The body `end` assembles: `chunks.length > 0 ? concat : undefined`. -/
def bodyOfChunks (chunks : List String) : Option String :=
  if chunks.length > 0 then some (String.join chunks) else none

/-- `response.end(chunk?)`: appends the (truthy) final chunk, marks headers
sent, assembles the `NextResponse` from the *local* `statusCode` variable,
the header record and the concatenated body, and resolves the one-shot
promise — keeping the first resolution if one already happened. -/
def Collector.finalize (s : Collector) (oc : Option String) : Collector :=
  let chunks := s.chunks ++ jsTruthyChunk oc
  let r : BufferedResponse :=
    { status := s.statusCodeVar, headers := s.headers,
      body := bodyOfChunks chunks }
  { s with
    chunks := chunks, headersSent := true,
    resolved := (match s.resolved with | some r0 => some r0 | none => some r) }

/-- `response.writeHead(code, message?, headers?)`: sets both the local
`statusCode` variable and the `statusCode` property, optionally the status
message, merges the header object (`Object.assign`), and marks headers
sent. -/
def Collector.writeHead (s : Collector) (code : Nat) (msg : Option String)
    (hs : HeaderMap) : Collector :=
  { s with
    statusCodeVar := code, statusCode := code,
    statusMessage := (match msg with | some m => m | none => s.statusMessage),
    headers := List.foldl (fun acc p => hset acc p.1 p.2) s.headers hs,
    headersSent := true }

/-- A direct `response.statusCode = code` property assignment (no
`writeHead`): it changes only the property, not the closure variable. -/
def Collector.assignStatusCode (s : Collector) (code : Nat) : Collector :=
  { s with statusCode := code }

/-- One collector interaction before finalisation, as the protocol engine
may perform them through the `ServerResponse` interface. -/
inductive COp where
  | write (c : String)
  | setHeader (n v : String)
  | removeHeader (n : String)
  | writeHead (code : Nat) (msg : Option String) (hs : HeaderMap)
  | assignStatusCode (code : Nat)
  deriving Repr, DecidableEq

/-- Run one interaction on the collector. -/
def Collector.applyOp (s : Collector) : COp → Collector
  | COp.write c => Collector.write s c
  | COp.setHeader n v => Collector.setHeader s n v
  | COp.removeHeader n => Collector.removeHeader s n
  | COp.writeHead code msg hs => Collector.writeHead s code msg hs
  | COp.assignStatusCode code => Collector.assignStatusCode s code

/-- Run a sequence of interactions on the collector. -/
def Collector.applyOps (s : Collector) (ops : List COp) : Collector :=
  List.foldl Collector.applyOp s ops

/-- The status code of the last `writeHead` in a sequence of interactions,
if any (later interactions take precedence). -/
def lastWriteHeadCode : List COp → Option Nat
  | [] => none
  | op :: ops =>
      (match lastWriteHeadCode ops with
       | some c => some c
       | none => (match op with | COp.writeHead c _ _ => some c | _ => none))

/-! ## `countJapaneseGraphemes` (`tools/countJapaneseChars.ts` lines 3–15)

The tool counts extended grapheme clusters with
`new Intl.Segmenter("ja", { granularity: "grapheme" })`, a platform
primitive implementing UAX #29 extended grapheme cluster segmentation;
when `Intl.Segmenter` is unavailable it falls back to
`Array.from(text).length`, the code-point count.  The segmenter is
modelled by the UAX #29 boundary rules relevant to the character
repertoire in play: GB9 (no break before Extend or ZWJ), GB11 (no break
between an extended-pictographic ZWJ sequence's ZWJ and a following
extended pictographic), and GB12/GB13 (no break inside a pair of regional
indicators).  The control/CR/LF, Hangul-jamo, SpacingMark and Prepend
rules concern characters outside this development's inputs and are left
out.  Characters are their Unicode code points (`Char.toNat`); JS string
iteration (`Array.from`, `Intl.Segmenter`) is by code point. -/

/-- Regional indicator symbols U+1F1E6–U+1F1FF (flag halves). -/
def isRegionalIndicator (c : Nat) : Bool :=
  0x1F1E6 ≤ c && c ≤ 0x1F1FF

/-- The zero width joiner U+200D. -/
def isZWJ (c : Nat) : Bool := c == 0x200D

/-- Grapheme_Cluster_Break = Extend, restricted to the blocks relevant
here: combining diacritics, the kana voicing marks U+3099/U+309A, the
combining marks for symbols, the zero width non-joiner, variation
selectors and emoji skin-tone modifiers. -/
def isExtendCp (c : Nat) : Bool :=
  (0x0300 ≤ c && c ≤ 0x036F) ||
  (0x3099 ≤ c && c ≤ 0x309A) ||
  (0x20D0 ≤ c && c ≤ 0x20FF) ||
  c == 0x200C ||
  (0xFE00 ≤ c && c ≤ 0xFE0F) ||
  (0x1F3FB ≤ c && c ≤ 0x1F3FF)

/-- Extended_Pictographic, restricted to the main emoji blocks (the
regional-indicator range U+1F1E6–U+1F1FF is not Extended_Pictographic and
is excluded). -/
def isExtPict (c : Nat) : Bool :=
  c == 0x00A9 || c == 0x00AE || c == 0x2B50 ||
  (0x2600 ≤ c && c ≤ 0x27BF) ||
  (0x1F000 ≤ c && c ≤ 0x1F0FF) ||
  (0x1F300 ≤ c && c ≤ 0x1F9FF) ||
  (0x1FA00 ≤ c && c ≤ 0x1FAFF)

/-- State of the left-to-right grapheme-boundary scan. -/
structure GraphemeState where
  /-- Clusters counted so far. -/
  count : Nat
  /-- Whether any code point has been seen yet. -/
  started : Bool
  /-- Length of the regional-indicator run ending at the previous code
  point (0 if none). -/
  riRun : Nat
  /-- Whether the text ending at the previous code point matches
  `Extended_Pictographic Extend*` (the left context of GB11). -/
  linkable : Bool
  /-- Whether the previous code point is a ZWJ whose left context matched
  `Extended_Pictographic Extend*` (so GB11 forbids a break before a
  following extended pictographic). -/
  zwjLinked : Bool
  deriving Repr, DecidableEq

/-- Initial scan state. -/
def GraphemeState.start : GraphemeState :=
  { count := 0, started := false, riRun := 0, linkable := false,
    zwjLinked := false }

/-- Process one code point: decide whether a cluster boundary precedes it
(GB9, GB11, GB12/GB13) and update the scan context. -/
def graphemeStep (st : GraphemeState) (c : Nat) : GraphemeState :=
  let noBreak :=
    st.started &&
      (isExtendCp c || isZWJ c ||
       (st.zwjLinked && isExtPict c) ||
       (isRegionalIndicator c && st.riRun % 2 == 1))
  { count := if noBreak then st.count else st.count + 1
    started := true
    riRun := if isRegionalIndicator c then st.riRun + 1 else 0
    linkable := isExtPict c || (isExtendCp c && st.linkable)
    zwjLinked := isZWJ c && st.linkable }

/-- Number of extended grapheme clusters of a code-point sequence. -/
def countGraphemes (cps : List Nat) : Nat :=
  (List.foldl graphemeStep GraphemeState.start cps).count

/-- `countJapaneseGraphemes` from `countJapaneseChars.ts`: grapheme-cluster
count through `Intl.Segmenter` when the platform provides it, else the
code-point count `Array.from(text).length`. -/
def countJapaneseGraphemes (segmenterAvailable : Bool) (text : String) : Nat :=
  let cps := List.map Char.toNat text.data
  if segmenterAvailable then countGraphemes cps else cps.length

/-! ## Supporting lemmas -/

theorem setCorsHeaders_status (r : HttpResponse) :
    (setCorsHeaders r).status = r.status := rfl

theorem setCorsHeaders_body (r : HttpResponse) :
    (setCorsHeaders r).body = r.body := rfl

theorem hget_setCorsHeaders_session (r : HttpResponse) :
    hget (setCorsHeaders r).headers "mcp-session-id"
      = hget r.headers "mcp-session-id" := by
  show hget (hset (hset (hset (hset r.headers _ _) _ _) _ _) _ _) _ = _
  rw [hget_hset_ne _ _ _ _ (by decide), hget_hset_ne _ _ _ _ (by decide),
    hget_hset_ne _ _ _ _ (by decide), hget_hset_ne _ _ _ _ (by decide)]

/-- Shared shape of the `-32000` / HTTP 400 outcome of a continuing call
whose session id is missing or unregistered. -/
theorem post_no_valid_session (env : String) (eng : Engine) (freshHandle : Nat)
    (sessionId : Option String) (body : Envelope) (reg : Registry)
    (hnotinit : body.isInit = false)
    (hbad : ∀ s, sessionId = some s → Registry.hasKey reg s = false) :
    (POST env eng freshHandle sessionId body reg).resp.status = 400
    ∧ (POST env eng freshHandle sessionId body reg).registry = reg
    ∧ ∃ msg data i, (POST env eng freshHandle sessionId body reg).resp.body
        = RespBody.rpcError (-32000) msg data i := by
  cases sessionId with
  | none =>
    refine ⟨?_, ?_, ?_⟩
    · simp [POST, hnotinit, invalidSessionResponse, setCorsHeaders_status]
    · simp [POST, hnotinit]
    · exact ⟨"Bad Request: No valid session ID provided or session not found",
        some "Please send an initialize request first", jsOrNull body.reqId,
        by simp [POST, hnotinit, invalidSessionResponse, setCorsHeaders_body]⟩
  | some s =>
    have hb := hbad s rfl
    refine ⟨?_, ?_, ?_⟩
    · simp [POST, hnotinit, hb, invalidSessionResponse, setCorsHeaders_status]
    · simp [POST, hnotinit, hb]
    · exact ⟨"Bad Request: No valid session ID provided or session not found",
        some "Please send an initialize request first", jsOrNull body.reqId,
        by simp [POST, hnotinit, hb, invalidSessionResponse, setCorsHeaders_body]⟩

theorem foldl_write_chunks (cs : List String) (s : Collector) :
    List.foldl Collector.write s cs = { s with chunks := s.chunks ++ cs } := by
  induction cs generalizing s with
  | nil => simp
  | cons c cs ih => simp [Collector.write, ih]

theorem finalize_resolved_of_none (s : Collector) (oc : Option String)
    (h : s.resolved = none) :
    (Collector.finalize s oc).resolved
      = some { status := s.statusCodeVar, headers := s.headers,
               body := bodyOfChunks (s.chunks ++ jsTruthyChunk oc) } := by
  simp [Collector.finalize, h]

theorem finalize_resolved_of_some (s : Collector) (oc : Option String)
    (r : BufferedResponse) (h : s.resolved = some r) :
    (Collector.finalize s oc).resolved = some r := by
  simp [Collector.finalize, h]

theorem applyOps_resolved (ops : List COp) (s : Collector) :
    (Collector.applyOps s ops).resolved = s.resolved := by
  induction ops generalizing s with
  | nil => rfl
  | cons op ops ih =>
    have step : (Collector.applyOps s (op :: ops))
        = Collector.applyOps (Collector.applyOp s op) ops := rfl
    rw [step, ih]
    cases op <;> rfl

theorem applyOps_statusCodeVar (ops : List COp) (s : Collector) :
    (Collector.applyOps s ops).statusCodeVar
      = (lastWriteHeadCode ops).getD s.statusCodeVar := by
  induction ops generalizing s with
  | nil => rfl
  | cons op ops ih =>
    have step : (Collector.applyOps s (op :: ops))
        = Collector.applyOps (Collector.applyOp s op) ops := rfl
    rw [step, ih]
    cases hl : lastWriteHeadCode ops with
    | some c => simp [lastWriteHeadCode, hl]
    | none =>
      cases op <;>
        simp [lastWriteHeadCode, hl, Collector.applyOp, Collector.write,
          Collector.setHeader, Collector.removeHeader, Collector.writeHead,
          Collector.assignStatusCode]

theorem lastWriteHeadCode_append_assign (ops : List COp) (code : Nat) :
    lastWriteHeadCode (ops ++ [COp.assignStatusCode code])
      = lastWriteHeadCode ops := by
  induction ops with
  | nil => rfl
  | cons op ops ih => simp [lastWriteHeadCode, ih]

/-- The initiating branch of `POST` when the engine succeeds, in closed
form. -/
theorem POST_init_ok (env : String) (eng : Engine) (freshHandle : Nat)
    (sessionId : Option String) (body : Envelope) (reg : Registry)
    (hinit : body.isInit = true) (hok : eng.initThrows = false) :
    POST env eng freshHandle sessionId body reg
      = { registry :=
            Registry.set (cleanupStale sessionId reg) eng.genId freshHandle,
          resp := setCorsHeaders
            { status := eng.initStatus,
              headers := hset eng.initHeaders "mcp-session-id" eng.genId,
              body := RespBody.engine eng.initBody } } := by
  simp [POST, hinit, Engine.handleInit, hok]

/-- The initiating branch of `POST` when the engine throws before the
id-assigned callback, in closed form. -/
theorem POST_init_err (env : String) (eng : Engine) (freshHandle : Nat)
    (sessionId : Option String) (body : Envelope) (reg : Registry)
    (hinit : body.isInit = true) (hth : eng.initThrows = true) :
    POST env eng freshHandle sessionId body reg
      = { registry := cleanupStale sessionId reg,
          resp := internalErrorResponse env eng.initErrMsg } := by
  simp [POST, hinit, Engine.handleInit, hth]

/-- The continuing branch of `POST` on a registered session when the engine
throws, in closed form. -/
theorem POST_cont_err (env : String) (eng : Engine) (freshHandle : Nat)
    (s : String) (body : Envelope) (reg : Registry)
    (hnotinit : body.isInit = false) (hreg : Registry.hasKey reg s = true)
    (hth : eng.contThrows = true) :
    POST env eng freshHandle (some s) body reg
      = { registry := reg,
          resp := internalErrorResponse env eng.contErrMsg } := by
  simp [POST, hnotinit, hreg, Engine.handleCont, hth]

theorem cleanupStale_hasKey_mono (sessionId : Option String) (reg : Registry)
    (k : String) (h : Registry.hasKey (cleanupStale sessionId reg) k = true) :
    Registry.hasKey reg k = true := by
  cases sessionId with
  | none => exact h
  | some sid =>
    by_cases hs : Registry.hasKey reg sid = true
    · exact Registry.hasKey_delete_mono reg sid k (by simpa [cleanupStale, hs] using h)
    · simpa [cleanupStale, hs] using h

/-! ## Sample values used by the closed witness statements -/

/-- A sample engine behaviour that succeeds on both call kinds and whose
id generator returned `"sid-new"`. -/
def engOk : Engine :=
  { genId := "sid-new", initThrows := false, initErrMsg := "",
    initStatus := 200, initHeaders := [("content-type", "application/json")],
    initBody := some "{}", contThrows := false, contErrMsg := "",
    contStatus := 200, contHeaders := [], contBody := some "{}" }

/-- A sample engine behaviour that throws on both call kinds. -/
def engBoom : Engine :=
  { genId := "sid-new", initThrows := true, initErrMsg := "boom",
    initStatus := 200, initHeaders := [], initBody := none,
    contThrows := true, contErrMsg := "boom", contStatus := 200,
    contHeaders := [], contBody := none }

/-- Like `engBoom`, with a different error message and stack. -/
def engBoom2 : Engine :=
  { engBoom with initErrMsg := "different stack", contErrMsg := "different stack" }

/-! ## Claim theorems -/

/-- Claim C8: `countJapaneseGraphemes` returns 5 for `"こんにちは"`, 6 for
`"こんにちは👋"`, 1 for `"🇯🇵"`, 1 for the four-member family emoji ZWJ
sequence, and 3 for the three-character surrogate-pair-containing word
`"𠮷野家"` (with the platform segmenter available, as in the Node runtime
the route declares). -/
theorem countJapaneseGraphemes_spec :
    countJapaneseGraphemes true "こんにちは" = 5
    ∧ countJapaneseGraphemes true "こんにちは👋" = 6
    ∧ countJapaneseGraphemes true "🇯🇵" = 1
    ∧ countJapaneseGraphemes true "👨‍👩‍👧‍👦" = 1
    ∧ countJapaneseGraphemes true "𠮷野家" = 3 := by
  decide

/-- Claim C5: every invocation of `createIncomingMessage` on the same
parsed request and decoded body yields a brand-new, not-yet-consumed
single-pass stream (the construction is a pure function of `req` and
`body`, so no state survives between invocations, and the read position of
the returned stream is always 0); consuming it yields chunks whose
concatenation is exactly the serialised body, after which the stream is
exhausted; with an absent body the consumed chunks carry zero bytes and
the stream likewise ends immediately (the stream is a finite chunk list
with no error channel, so it terminates rather than erroring). -/
theorem createIncomingMessage_fresh_single_pass (req : NextReq)
    (body : Option String) :
    (createIncomingMessage req body).stream.pos = 0
    ∧ String.join ((createIncomingMessage req body).stream.readAll).1
        = (match body with | some j => j | none => "")
    ∧ (((createIncomingMessage req body).stream.readAll).2.readAll).1 = []
    ∧ String.join ((createIncomingMessage req none).stream.readAll).1 = ""
    ∧ (((createIncomingMessage req none).stream.readAll).2.readAll).1 = [] := by
  refine ⟨rfl, ?_, rfl, rfl, rfl⟩
  cases body <;> simp [createIncomingMessage, ByteStream.readAll, String.join]

/-- Claim C6: writing `"a"` then `"b"` and finalising with no trailing
chunk resolves the collector's one-shot promise with a buffered response
whose body is `"ab"`; in general the first finalisation resolves the
promise with the concatenation, in write order, of all written chunks plus
the optional (truthy) final chunk, and a finalisation of an
already-finalised collector leaves the resolved value unchanged, so the
promise resolves exactly once per collector instance. -/
theorem collector_finalize_resolves_once (cs : List String) (oc : Option String) :
    (Collector.finalize (List.foldl Collector.write Collector.start cs) oc).resolved
      = some { status := 200, headers := [],
               body := bodyOfChunks (cs ++ jsTruthyChunk oc) }
    ∧ (∀ oc2 : Option String,
        (Collector.finalize
            (Collector.finalize (List.foldl Collector.write Collector.start cs) oc)
            oc2).resolved
          = (Collector.finalize (List.foldl Collector.write Collector.start cs)
              oc).resolved)
    ∧ (Collector.finalize (Collector.write (Collector.write Collector.start "a") "b")
        none).resolved
      = some { status := 200, headers := [], body := some "ab" } := by
  have hw := foldl_write_chunks cs Collector.start
  have hres : (Collector.finalize (List.foldl Collector.write Collector.start cs)
      oc).resolved
      = some { status := 200, headers := [],
               body := bodyOfChunks (cs ++ jsTruthyChunk oc) } := by
    rw [hw]
    exact finalize_resolved_of_none _ _ rfl
  refine ⟨hres, ?_, by decide⟩
  intro oc2
  rw [finalize_resolved_of_some _ oc2 _ hres, hres]

/-- Claim C10: the buffered response the collector resolves with on
finalisation carries the status code of the most recent `writeHead`, or
200 when `writeHead` was never called, whatever other interactions
occurred; in particular appending a direct assignment to the `statusCode`
property does not change the final status. -/
theorem collector_status_from_writeHead (ops : List COp) (oc : Option String) :
    Option.map BufferedResponse.status
        ((Collector.finalize (Collector.applyOps Collector.start ops) oc).resolved)
      = some ((lastWriteHeadCode ops).getD 200)
    ∧ ∀ code : Nat,
        Option.map BufferedResponse.status
            ((Collector.finalize
              (Collector.applyOps Collector.start
                (ops ++ [COp.assignStatusCode code])) oc).resolved)
          = some ((lastWriteHeadCode ops).getD 200) := by
  have key : ∀ ops' : List COp,
      Option.map BufferedResponse.status
          ((Collector.finalize (Collector.applyOps Collector.start ops') oc).resolved)
        = some ((lastWriteHeadCode ops').getD 200) := by
    intro ops'
    have hres := applyOps_resolved ops' Collector.start
    rw [finalize_resolved_of_none _ _ hres, applyOps_statusCodeVar]
    rfl
  refine ⟨key ops, fun code => ?_⟩
  rw [key (ops ++ [COp.assignStatusCode code]), lastWriteHeadCode_append_assign]

/-- Claim C1: a well-formed session-initiating `POST` call on which the
engine completes carries, in the dedicated `mcp-session-id` response
header, exactly the id produced by the server-side generator
(`sessionIdGenerator`, i.e. `randomUUID`, whose output `eng.genId` is
previously unseen and independent of any client-supplied value), and the
registry afterwards maps that id to the freshly created transport
handle. -/
theorem post_initiating_fresh_session_header (env : String) (eng : Engine)
    (freshHandle : Nat) (sessionId : Option String) (body : Envelope)
    (reg : Registry) (hinit : body.isInit = true)
    (hok : eng.initThrows = false) :
    hget (POST env eng freshHandle sessionId body reg).resp.headers
        "mcp-session-id"
      = some eng.genId
    ∧ Registry.get? (POST env eng freshHandle sessionId body reg).registry
        eng.genId
      = some freshHandle := by
  rw [POST_init_ok env eng freshHandle sessionId body reg hinit hok]
  exact ⟨by rw [hget_setCorsHeaders_session]; exact hget_hset_self _ _ _,
    Registry.get?_set_self _ _ _⟩

/-- Witness for claim C1 at a concrete initiating call. -/
theorem post_initiating_fresh_session_header_witness :
    hget (POST "production" engOk 7 (some "sid-old") ⟨true, none⟩
        [("sid-old", 3)]).resp.headers "mcp-session-id"
      = some "sid-new"
    ∧ Registry.get? (POST "production" engOk 7 (some "sid-old") ⟨true, none⟩
        [("sid-old", 3)]).registry "sid-new"
      = some 7 :=
  post_initiating_fresh_session_header "production" engOk 7 (some "sid-old")
    ⟨true, none⟩ [("sid-old", 3)] rfl rfl

/-- Claim C2: a continuing (non-initiating) `POST` call whose session
header is absent, or whose session id is not in the registry, yields HTTP
400 with a JSON-RPC error envelope of code `-32000`, whatever the rest of
the envelope contains. -/
theorem post_continuing_invalid_session (env : String) (eng : Engine)
    (freshHandle : Nat) (sessionId : Option String) (body : Envelope)
    (reg : Registry) (hnotinit : body.isInit = false)
    (hbad : ∀ s, sessionId = some s → Registry.hasKey reg s = false) :
    (POST env eng freshHandle sessionId body reg).resp.status = 400
    ∧ ∃ msg data i, (POST env eng freshHandle sessionId body reg).resp.body
        = RespBody.rpcError (-32000) msg data i :=
  ⟨(post_no_valid_session env eng freshHandle sessionId body reg hnotinit hbad).1,
   (post_no_valid_session env eng freshHandle sessionId body reg hnotinit hbad).2.2⟩

/-- Witness for claim C2 at a concrete continuing call without a session
header. -/
theorem post_continuing_invalid_session_witness :
    (POST "production" engOk 7 none ⟨false, some 1⟩ []).resp.status = 400
    ∧ ∃ msg data i, (POST "production" engOk 7 none ⟨false, some 1⟩ []).resp.body
        = RespBody.rpcError (-32000) msg data i :=
  post_continuing_invalid_session "production" engOk 7 none ⟨false, some 1⟩ []
    rfl (fun _ hs => nomatch hs)

/-- Claim C4: a session-initiating call that carries a session id currently
registered removes that old entry (it is gone from the resulting registry,
given that the freshly generated id differs from it — `randomUUID` never
repeats an existing id), and the response carries the brand-new
server-generated id, not the old one. -/
theorem post_reinit_discards_old_entry (env : String) (eng : Engine)
    (freshHandle : Nat) (old : String) (body : Envelope) (reg : Registry)
    (hinit : body.isInit = true) (hok : eng.initThrows = false)
    (hreg : Registry.hasKey reg old = true) (hfresh : eng.genId ≠ old) :
    Registry.get? (POST env eng freshHandle (some old) body reg).registry old
      = none
    ∧ hget (POST env eng freshHandle (some old) body reg).resp.headers
        "mcp-session-id"
      = some eng.genId := by
  rw [POST_init_ok env eng freshHandle (some old) body reg hinit hok]
  constructor
  · show Registry.get?
        (Registry.set (cleanupStale (some old) reg) eng.genId freshHandle) old
      = none
    rw [Registry.get?_set_ne _ _ _ _ (Ne.symm hfresh)]
    simp [cleanupStale, hreg, Registry.get?_delete_self]
  · rw [hget_setCorsHeaders_session]
    exact hget_hset_self _ _ _

/-- Witness for claim C4 at a concrete re-initiating call. -/
theorem post_reinit_discards_old_entry_witness :
    Registry.get? (POST "production" engOk 7 (some "sid-old") ⟨true, none⟩
        [("sid-old", 3)]).registry "sid-old"
      = none
    ∧ hget (POST "production" engOk 7 (some "sid-old") ⟨true, none⟩
        [("sid-old", 3)]).resp.headers "mcp-session-id"
      = some "sid-new" :=
  post_reinit_discards_old_entry "production" engOk 7 "sid-old" ⟨true, none⟩
    [("sid-old", 3)] rfl rfl (by decide) (by decide)

/-- Claim C3: a termination (`DELETE`) call without a session header yields
HTTP 400; with an unregistered id it yields HTTP 404; with a registered id
it removes exactly that registry entry without invoking any transport's
close machinery and reports success, after which a continuing `POST` call
with the same id fails with the unknown-session (`-32000` / 400) error. -/
theorem delete_terminates_session (sid : String) (reg : Registry)
    (env : String) (eng : Engine) (freshHandle : Nat) (body : Envelope)
    (hreg : Registry.hasKey reg sid = true)
    (hnotinit : body.isInit = false) :
    (DELETE none reg).resp.status = 400
    ∧ (∀ (reg' : Registry) (s : String), Registry.hasKey reg' s = false →
        (DELETE (some s) reg').resp.status = 404)
    ∧ (DELETE (some sid) reg).resp.status = 200
    ∧ (DELETE (some sid) reg).closed = []
    ∧ Registry.get? (DELETE (some sid) reg).registry sid = none
    ∧ (POST env eng freshHandle (some sid) body
        (DELETE (some sid) reg).registry).resp.status = 400
    ∧ ∃ msg data i,
        (POST env eng freshHandle (some sid) body
          (DELETE (some sid) reg).registry).resp.body
          = RespBody.rpcError (-32000) msg data i := by
  have hdel : (DELETE (some sid) reg).registry = Registry.delete reg sid := by
    simp [DELETE, hreg]
  have hbad : ∀ s, (some sid : Option String) = some s →
      Registry.hasKey (DELETE (some sid) reg).registry s = false := by
    intro s hs
    cases hs
    rw [hdel]
    exact Registry.hasKey_delete_self reg sid
  refine ⟨rfl, ?_, ?_, ?_, ?_, ?_, ?_⟩
  · intro reg' s h
    simp [DELETE, h, setCorsHeaders_status]
  · simp [DELETE, hreg, setCorsHeaders_status]
  · simp [DELETE, hreg]
  · rw [hdel]
    exact Registry.get?_delete_self reg sid
  · exact (post_no_valid_session env eng freshHandle (some sid) body
      (DELETE (some sid) reg).registry hnotinit hbad).1
  · exact (post_no_valid_session env eng freshHandle (some sid) body
      (DELETE (some sid) reg).registry hnotinit hbad).2.2

/-- Witness for claim C3 at a concrete registered session. -/
theorem delete_terminates_session_witness :
    (DELETE none [("sid-a", 3)]).resp.status = 400
    ∧ (∀ (reg' : Registry) (s : String), Registry.hasKey reg' s = false →
        (DELETE (some s) reg').resp.status = 404)
    ∧ (DELETE (some "sid-a") [("sid-a", 3)]).resp.status = 200
    ∧ (DELETE (some "sid-a") [("sid-a", 3)]).closed = []
    ∧ Registry.get? (DELETE (some "sid-a") [("sid-a", 3)]).registry "sid-a" = none
    ∧ (POST "production" engOk 7 (some "sid-a") ⟨false, none⟩
        (DELETE (some "sid-a") [("sid-a", 3)]).registry).resp.status = 400
    ∧ ∃ msg data i,
        (POST "production" engOk 7 (some "sid-a") ⟨false, none⟩
          (DELETE (some "sid-a") [("sid-a", 3)]).registry).resp.body
          = RespBody.rpcError (-32000) msg data i :=
  delete_terminates_session "sid-a" [("sid-a", 3)] "production" engOk 7
    ⟨false, none⟩ (by decide) rfl

/-- Claim C7: when the protocol engine throws while processing a `POST`
call — on the initiating branch before the id-assigned callback has fired,
or on the continuing branch of a registered session — the router catches
the fault and answers HTTP 500 with a JSON-RPC `-32603` envelope instead
of propagating it, the registry gains no key it did not already have, and
in particular a failed initiating call leaves no entry under the freshly
generated session id. -/
theorem post_engine_failure_contained (env : String) (eng : Engine)
    (freshHandle : Nat) (sessionId : Option String) (body : Envelope)
    (reg : Registry)
    (hfail : (body.isInit = true ∧ eng.initThrows = true)
      ∨ (body.isInit = false ∧ eng.contThrows = true
          ∧ ∃ s, sessionId = some s ∧ Registry.hasKey reg s = true)) :
    (POST env eng freshHandle sessionId body reg).resp.status = 500
    ∧ (∃ data, (POST env eng freshHandle sessionId body reg).resp.body
        = RespBody.rpcError (-32603) "Internal server error" data none)
    ∧ (∀ k, Registry.hasKey
          (POST env eng freshHandle sessionId body reg).registry k = true
        → Registry.hasKey reg k = true)
    ∧ (Registry.hasKey reg eng.genId = false
        → Registry.hasKey
            (POST env eng freshHandle sessionId body reg).registry eng.genId
          = false) := by
  have core : (POST env eng freshHandle sessionId body reg).resp.status = 500
      ∧ (∃ data, (POST env eng freshHandle sessionId body reg).resp.body
          = RespBody.rpcError (-32603) "Internal server error" data none)
      ∧ (∀ k, Registry.hasKey
            (POST env eng freshHandle sessionId body reg).registry k = true
          → Registry.hasKey reg k = true) := by
    rcases hfail with ⟨hinit, hth⟩ | ⟨hnotinit, hth, s, hs, hks⟩
    · rw [POST_init_err env eng freshHandle sessionId body reg hinit hth]
      exact ⟨rfl,
        ⟨(if env = "development" then some eng.initErrMsg else none), rfl⟩,
        fun k hk => cleanupStale_hasKey_mono sessionId reg k hk⟩
    · cases hs
      rw [POST_cont_err env eng freshHandle s body reg hnotinit hks hth]
      exact ⟨rfl,
        ⟨(if env = "development" then some eng.contErrMsg else none), rfl⟩,
        fun k hk => hk⟩
  refine ⟨core.1, core.2.1, core.2.2, ?_⟩
  intro hno
  cases hv : Registry.hasKey
      (POST env eng freshHandle sessionId body reg).registry eng.genId with
  | false => rfl
  | true => exact absurd (core.2.2 eng.genId hv) (by simp [hno])

/-- Witness for claim C7 at a concrete failing initiating call. -/
theorem post_engine_failure_contained_witness :
    (POST "production" engBoom 7 none ⟨true, none⟩ []).resp.status = 500
    ∧ (∃ data, (POST "production" engBoom 7 none ⟨true, none⟩ []).resp.body
        = RespBody.rpcError (-32603) "Internal server error" data none)
    ∧ (∀ k, Registry.hasKey
          (POST "production" engBoom 7 none ⟨true, none⟩ []).registry k = true
        → Registry.hasKey ([] : Registry) k = true)
    ∧ (Registry.hasKey ([] : Registry) engBoom.genId = false
        → Registry.hasKey
            (POST "production" engBoom 7 none ⟨true, none⟩ []).registry
            engBoom.genId
          = false) :=
  post_engine_failure_contained "production" engBoom 7 none ⟨true, none⟩ []
    (Or.inl ⟨rfl, rfl⟩)

/-- Claim C9: outside development mode the internal-failure envelope is
independent of the fault: two initiating calls on which the engine throws
with different messages or stacks produce identical results (in
particular, identical response bodies carrying only the generic message
and no `data` field); the error detail is attached only in development
mode. -/
theorem production_internal_error_opaque (env : String) (eng1 eng2 : Engine)
    (freshHandle : Nat) (sessionId : Option String) (body : Envelope)
    (reg : Registry) (hprod : env ≠ "development")
    (hinit : body.isInit = true)
    (ht1 : eng1.initThrows = true) (ht2 : eng2.initThrows = true) :
    POST env eng1 freshHandle sessionId body reg
      = POST env eng2 freshHandle sessionId body reg
    ∧ (POST env eng1 freshHandle sessionId body reg).resp.body
        = RespBody.rpcError (-32603) "Internal server error" none none
    ∧ (∀ m, internalErrorEnvelope "development" m
        = RespBody.rpcError (-32603) "Internal server error" (some m) none) := by
  rw [POST_init_err env eng1 freshHandle sessionId body reg hinit ht1,
    POST_init_err env eng2 freshHandle sessionId body reg hinit ht2]
  refine ⟨?_, ?_, fun m => by simp [internalErrorEnvelope]⟩
  · simp [internalErrorResponse, internalErrorEnvelope, hprod]
  · show (internalErrorResponse env eng1.initErrMsg).body = _
    simp [internalErrorResponse, setCorsHeaders, internalErrorEnvelope, hprod]

/-- Witness for claim C9 at two concrete faults with different messages. -/
theorem production_internal_error_opaque_witness :
    POST "production" engBoom 7 (some "sid-a") ⟨true, none⟩ []
      = POST "production" engBoom2 7 (some "sid-a") ⟨true, none⟩ []
    ∧ (POST "production" engBoom 7 (some "sid-a") ⟨true, none⟩ []).resp.body
        = RespBody.rpcError (-32603) "Internal server error" none none
    ∧ (∀ m, internalErrorEnvelope "development" m
        = RespBody.rpcError (-32603) "Internal server error" (some m) none) :=
  production_internal_error_opaque "production" engBoom engBoom2 7
    (some "sid-a") ⟨true, none⟩ [] (by decide) rfl rfl rfl

end McpPractice
